import Mathlib

/-!
Verification of the Quran-AI worker's retrieval / quota / response pipeline.

The definitions below are a shallow embedding of the TypeScript sources
(`src/types.ts` / `src/utils.ts` and the worker entry file):
* corpus data model (`QuranVerse`, `QuranSurah`),
* keyword extraction (`extractKeywords`),
* relevance ranking (`findRelevantVerses`; the JavaScript stable
  `Array.prototype.sort` is modelled by `List.mergeSort`, which is stable),
* neuron accounting (`calculateNeuronsConsumed`, `formatNeurons`,
  `checkAndUpdateNeuronLimit`; JavaScript numbers are modelled by `ℚ`,
  KV-store reads/writes by explicit `Option` state passing),
* prompt construction (`createQuranPrompt`, the `SYSTEM_PROMPTS` table), and
* the `/api/ask` request handler (`askHandler`) with the AI gateway call
  modelled as an oracle outcome (`AIOutcome`).

Modelling conventions: wall-clock values (the KV date key, timestamps) are
not modelled; a KV read failure behaves exactly like an absent key (the
code catches the error and keeps `currentNeurons = 0`), so both are the
`Option.none` state.  JavaScript's `split(/\s+/)` can additionally produce
empty-string tokens at the boundaries; these are erased by the subsequent
`length > 2` filter, so `extractKeywords` is unaffected.
-/

namespace QuranAI

/-! ## Data model (`types.ts`) -/

structure QuranVerse where
  id : ℤ
  text : String
  translation : String
deriving DecidableEq

structure QuranSurah where
  id : ℤ
  name : String
  transliteration : String
  translation : String
  type : String
  total_verses : ℤ
  verses : List QuranVerse
deriving DecidableEq

/-! ## Keyword extraction (`extractKeywords` in `utils.ts`) -/

/-- The fixed multilingual stop-word set from `extractKeywords`. -/
def stopWords : List String :=
  ["apa", "siapa", "dimana", "kapan", "mengapa", "bagaimana",
   "yang", "dan", "atau", "dari", "ke", "di", "pada", "dengan",
   "untuk", "tentang", "seperti", "adalah", "itu", "ini", "saya",
   "kamu", "kita", "mereka", "dalam", "oleh", "the", "what", "who",
   "where", "when", "why", "how", "is", "are", "and", "or", "from",
   "to", "in", "on", "with", "for", "about", "like", "that", "this"]

/-- JavaScript `toLowerCase`, restricted to the ASCII range the corpus uses. -/
def jsLower (s : String) : String := ⟨s.data.map Char.toLower⟩

/-- A JavaScript `\w` character: `[A-Za-z0-9_]`. -/
def isWordChar (c : Char) : Bool := c.isAlphanum || c = '_'

/-- The `replace(/[^\w\s]/g, ' ')` step: non-word, non-space characters
become spaces. -/
def normalizeChar (c : Char) : Char :=
  if isWordChar c || c.isWhitespace then c else ' '

/-- The tokenization pipeline of `extractKeywords` up to the final filter:
lowercase, strip punctuation to spaces, split on whitespace runs. -/
def tokenize (question : String) : List String :=
  (((jsLower question).data.map normalizeChar).splitOnP Char.isWhitespace).map String.mk

/-- The `extractKeywords` function from `utils.ts`. -/
def extractKeywords (question : String) : List String :=
  (tokenize question).filter (fun w => 2 < w.length && !(stopWords.contains w))

/-! ## Relevance ranking (`findRelevantVerses` in `utils.ts`) -/

/-- Substring test on character lists: `needle` occurs contiguously in the
second argument.  Models JavaScript `String.prototype.includes`. -/
def charsContain (needle : List Char) : List Char → Bool
  | [] => needle.isEmpty
  | c :: rest => needle.isPrefixOf (c :: rest) || charsContain needle rest

/-- JavaScript `hay.includes(needle)` on strings. -/
def strIncludes (hay needle : String) : Bool := charsContain needle.data hay.data

/-- The per-verse scoring loop of `findRelevantVerses`: every keyword that
occurs in the (already lowercased) verse text adds its own length. -/
def verseScore (keywords : List String) (verseText : String) : ℕ :=
  keywords.foldl (fun s k => if strIncludes verseText k then s + k.length else s) 0

/-- Score as the specification phrases it: the sum of the lengths of the
keywords that are substring-contained in the verse text. -/
def specVerseScore (keywords : List String) (verseText : String) : ℕ :=
  ((keywords.filter (fun k => strIncludes verseText k)).map String.length).sum

/-- The record pushed onto `relevantVerses` for a scoring verse. -/
structure ScoredVerse where
  surah_id : ℤ
  surah_name : String
  surah_name_arabic : String
  verse_id : ℤ
  verse_text_arabic : String
  verse_text_translation : String
  score : ℕ
deriving DecidableEq

/-- A `ScoredVerse` after the final `.map` adds the `reference` string. -/
structure RankedVerse extends ScoredVerse where
  reference : String
deriving DecidableEq

/-- The body of the inner loop of `findRelevantVerses`: skip verses with an
empty (falsy) translation, score the rest, and keep them only when the
score is positive. -/
def scoreVerseEntry (surah : QuranSurah) (keywords : List String)
    (verse : QuranVerse) : Option ScoredVerse :=
  if verse.translation = "" then none
  else if 0 < verseScore keywords (jsLower verse.translation) then
    some { surah_id := surah.id, surah_name := surah.name,
           surah_name_arabic := surah.name, verse_id := verse.id,
           verse_text_arabic := verse.text,
           verse_text_translation := verse.translation,
           score := verseScore keywords (jsLower verse.translation) }
  else none

/-- The two nested collection loops of `findRelevantVerses`. -/
def collectScored (quranData : List QuranSurah) (keywords : List String) :
    List ScoredVerse :=
  quranData.flatMap (fun surah => surah.verses.filterMap (scoreVerseEntry surah keywords))

/-- The sort comparator `(a, b) => b.score - a.score` as a boolean "may come
first" relation: `a` may precede `b` when `b.score ≤ a.score`. -/
def scoreDescending (a b : ScoredVerse) : Bool := b.score ≤ a.score

/-- The reference string `` `${name} (${surah_id}:${verse_id})` ``. -/
def mkReference (v : ScoredVerse) : String :=
  v.surah_name ++ " (" ++ toString v.surah_id ++ ":" ++ toString v.verse_id ++ ")"

/-- The final `.map` of `findRelevantVerses`. -/
def addReference (v : ScoredVerse) : RankedVerse :=
  { toScoredVerse := v, reference := mkReference v }

/-- The `findRelevantVerses` function from `utils.ts`: collect scoring
verses, stable-sort by descending score, truncate, attach references. -/
def findRelevantVerses (quranData : List QuranSurah) (keywords : List String)
    (limit : ℕ) : List RankedVerse :=
  ((((collectScored quranData keywords).mergeSort scoreDescending).take limit).map
    addReference)

/-! ## Neuron accounting (`utils.ts`)

JavaScript numbers are modelled by `ℚ`; at every input the claims touch the
double-precision computations are exact, so the rational model agrees with
the JavaScript values. -/

def INPUT_TOKEN_NEURON_RATE : ℚ := 26668 / 1000000

def OUTPUT_TOKEN_NEURON_RATE : ℚ := 204805 / 1000000

def calculateNeuronsConsumed (promptTokens completionTokens : ℚ) : ℚ :=
  promptTokens * INPUT_TOKEN_NEURON_RATE + completionTokens * OUTPUT_TOKEN_NEURON_RATE

/-- JavaScript `Number.prototype.toFixed` on exact inputs: round to the
nearest multiple of `10 ^ (-digits)` (on a tie the larger candidate wins,
as the ECMAScript specification prescribes) and print with exactly `digits`
fraction digits. -/
def toFixed (x : ℚ) (digits : ℕ) : String :=
  let scaled : ℤ := ⌊x * (10 : ℚ) ^ digits + 1 / 2⌋
  let m : ℕ := scaled.natAbs
  let intPart : ℕ := m / 10 ^ digits
  let fracPart : ℕ := m % 10 ^ digits
  let fracStr : String := Nat.repr fracPart
  let padding : String := String.mk (List.replicate (digits - fracStr.length) '0')
  let sign : String := if scaled < 0 then "-" else ""
  if digits = 0 then sign ++ Nat.repr intPart
  else sign ++ Nat.repr intPart ++ "." ++ padding ++ fracStr

/-- The `formatNeurons` function from `utils.ts`. -/
def formatNeurons (neurons : ℚ) : String :=
  if neurons < 1000 then toFixed neurons 2
  else if neurons < 1000000 then toFixed (neurons / 1000) 2 ++ "k"
  else toFixed (neurons / 1000000) 4 ++ "M"

structure CostEstimate where
  inputCost : ℚ
  outputCost : ℚ
  totalCost : ℚ
deriving DecidableEq

def INPUT_COST_PER_TOKEN : ℚ := (293 / 1000) / 1000000

def OUTPUT_COST_PER_TOKEN : ℚ := (2253 / 1000) / 1000000

/-- The `estimateCost` function from `utils.ts`. -/
def estimateCost (promptTokens completionTokens : ℚ) : CostEstimate :=
  { inputCost := promptTokens * INPUT_COST_PER_TOKEN,
    outputCost := completionTokens * OUTPUT_COST_PER_TOKEN,
    totalCost := promptTokens * INPUT_COST_PER_TOKEN + completionTokens * OUTPUT_COST_PER_TOKEN }

/-- The `estimateTokens` function: `Math.ceil(text.length / 4)`, written with
natural-number ceiling division. -/
def estimateTokens (text : String) : ℕ := (text.length + 3) / 4

/-- The daily cap `DAILY_NEURON_LIMIT` from `checkAndUpdateNeuronLimit`. -/
def DAILY_NEURON_LIMIT : ℚ := 10000

/-- A `put` issued against the `NEURON_LIMITER` KV namespace. -/
structure KVWrite where
  value : ℚ
  expirationTtl : ℕ
deriving DecidableEq

/-- The result object of `checkAndUpdateNeuronLimit`. -/
structure NeuronLimitResult where
  allowed : Bool
  consumed : ℚ
  remaining : ℚ
  dailyLimit : ℚ
  message : Option String
deriving DecidableEq

/-- The `checkAndUpdateNeuronLimit` function from `utils.ts`.  The KV state
for today's key is passed explicitly: `stored` is the value under the key
(`none` both when the key is absent and when the read failed, since the
code catches the error and keeps `currentNeurons = 0`); the second
component of the result is the `put` the call issues, if any. -/
def checkAndUpdateNeuronLimit (stored : Option ℚ) (promptTokens completionTokens : ℚ) :
    NeuronLimitResult × Option KVWrite :=
  let consumedNeurons := calculateNeuronsConsumed promptTokens completionTokens
  let currentNeurons := stored.getD 0
  let newTotal := currentNeurons + consumedNeurons
  if DAILY_NEURON_LIMIT < newTotal then
    ({ allowed := false, consumed := consumedNeurons,
       remaining := max 0 (DAILY_NEURON_LIMIT - currentNeurons),
       dailyLimit := DAILY_NEURON_LIMIT,
       message := some ("Batas harian neuron terlampaui. Tersisa: " ++
         formatNeurons (DAILY_NEURON_LIMIT - currentNeurons) ++ " neurons") }, none)
  else
    ({ allowed := true, consumed := consumedNeurons,
       remaining := DAILY_NEURON_LIMIT - newTotal,
       dailyLimit := DAILY_NEURON_LIMIT, message := none },
     some { value := newTotal, expirationTtl := 86400 })

/-- The KV state after one `checkAndUpdateNeuronLimit` call: a successful
call persists the written value, a denied call leaves the store alone. -/
def applyNeuronCall (stored : Option ℚ) (pc : ℚ × ℚ) : Option ℚ :=
  match (checkAndUpdateNeuronLimit stored pc.1 pc.2).2 with
  | some w => some w.value
  | none => stored

/-- The KV state after a sequence of `checkAndUpdateNeuronLimit` calls
(each element is a prompt-token / completion-token pair). -/
def runNeuronCalls (stored : Option ℚ) (calls : List (ℚ × ℚ)) : Option ℚ :=
  calls.foldl applyNeuronCall stored

/-! ## Prompt construction (`createQuranPrompt` in `utils.ts`) -/

/-- The Indonesian no-verses template of `createQuranPrompt` (the template
literal's own indentation included), with the question spliced in. -/
def promptNoVersesId (question : String) : String :=
  "Anda adalah asisten AI khusus Al-Quran yang sangat berpengetahuan.\n      Anda hanya menjawab pertanyaan berdasarkan Al-Quran dan tafsir yang sahih.\n      Jika tidak tahu, katakan dengan jujur.\n\n      Pertanyaan: \"" ++
  question ++
  "\"\n\n      Berikan jawaban yang:\n      1. Berdasarkan pengetahuan Al-Quran yang sahih\n      2. Jelas dan mudah dipahami\n      3. Menggunakan bahasa Indonesia yang baik\n      4. Sertakan referensi ayat yang relevan jika ada\n      5. Jika perlu, tambahkan tafsir singkat\n\n      Jawaban:"

/-- The English no-verses template of `createQuranPrompt`. -/
def promptNoVersesEn (question : String) : String :=
  "You are a knowledgeable Quran AI assistant.\n      You only answer questions based on the Quran and authentic interpretations.\n      If you don\x27t know, say so honestly.\n\n      Question: \"" ++
  question ++
  "\"\n\n      Provide an answer that:\n      1. Is based on authentic Quran knowledge\n      2. Clear and understandable\n      3. Uses proper English\n      4. Include relevant verse references if available\n      5. Add brief interpretation if needed\n\n      Answer:"

/-- One entry of the `versesContext` join: `v.surah_name_arabic ||
v.surah_name` falls back on the JavaScript-falsy empty string. -/
def versesContextEntry (language : String) (v : RankedVerse) : String :=
  let shownName := if v.surah_name_arabic = "" then v.surah_name else v.surah_name_arabic
  if language = "id" then
    "Surah " ++ shownName ++ " (" ++ toString v.surah_id ++ ":" ++ toString v.verse_id ++
    ")\nAyat Arab: \"" ++ v.verse_text_arabic ++ "\"\nTerjemahan Indonesia: \"" ++
    v.verse_text_translation ++ "\""
  else
    "Surah " ++ shownName ++ " (" ++ toString v.surah_id ++ ":" ++ toString v.verse_id ++
    ")\nArabic Verse: \"" ++ v.verse_text_arabic ++ "\"\nEnglish Translation: \"" ++
    v.verse_text_translation ++ "\""

/-- The Indonesian with-verses template of `createQuranPrompt`. -/
def promptWithVersesId (question versesContext : String) : String :=
  "Anda adalah asisten AI khusus Al-Quran yang sangat berpengetahuan.\nTugas Anda hanya menjawab berdasarkan ayat-ayat Al-Quran di bawah ini:\n\nPertanyaan: \"" ++
  question ++
  "\"\n\nAYAT-AL-QURAN YANG RELEVAN:\n" ++
  versesContext ++
  "\n\nINSTRUKSI JAWABAN:\n1. Jawab HANYA berdasarkan ayat-ayat di atas\n2. Setiap kali menyebut ayat, TULISKAN teks Arab-nya\n3. Di bawah teks Arab, berikan terjemahannya\n4. Gunakan format:\n   [Nama Surah Ayat X]\n   [Teks Arab]\n   [Terjemahan]\n5. Jawaban maksimal 3 paragraf\n6. Jika tidak ada di ayat-ayat ini, katakan \"Berdasarkan ayat-ayat yang tersedia...\"\n\nJAWABAN:"

/-- The English with-verses template of `createQuranPrompt`. -/
def promptWithVersesEn (question versesContext : String) : String :=
  "You are a knowledgeable Quran AI assistant.\nYou must answer ONLY based on the Quran verses below:\n\nQuestion: \"" ++
  question ++
  "\"\n\nRELEVANT QURAN VERSES:\n" ++
  versesContext ++
  "\n\nANSWER INSTRUCTIONS:\n1. Answer ONLY based on the verses above\n2. Whenever mentioning a verse, WRITE the Arabic text\n3. Below the Arabic text, provide the translation\n4. Use format:\n   [Surah Name Verse X]\n   [Arabic Text]\n   [Translation]\n5. Maximum 3 paragraphs\n6. If not in these verses, say \"Based on the available verses...\"\n\nANSWER:"

/-- The `createQuranPrompt` function from `utils.ts`. -/
def createQuranPrompt (question : String) (relevantVerses : List RankedVerse)
    (language : String) : String :=
  if relevantVerses = [] then
    if language = "id" then promptNoVersesId question else promptNoVersesEn question
  else
    let versesContext :=
      String.intercalate "\n\n" (relevantVerses.map (versesContextEntry language))
    if language = "id" then promptWithVersesId question versesContext
    else promptWithVersesEn question versesContext

/-! ## Worker entry file: system prompts, fallbacks, `/api/ask` handler -/

/-- The `SYSTEM_PROMPTS.id` template literal. -/
def SYSTEM_PROMPT_ID : String :=
  "Anda adalah asisten AI khusus Al-Quran yang sangat berpengetahuan.\n  Nama Anda: Ustad AI.\n  Tugas Anda:\n  1. Hanya menjawab berdasarkan Al-Quran dan tafsir yang sahih\n  2. Jika tidak tahu, katakan dengan jujur\n  3. Selalu sertakan referensi ayat Al-Quran\n  4. Gunakan bahasa Indonesia yang baik dan mudah dipahami\n  5. Berikan penjelasan yang jelas dan mendidik\n  6. Hindari spekulasi atau pendapat pribadi\n\n  Sifat Anda:\n  - Santun dan sabar\n  - Ilmiah dan objektif\n  - Berbasis dalil yang kuat\n  - Mengutamakan kebenaran"

/-- The `SYSTEM_PROMPTS.en` template literal. -/
def SYSTEM_PROMPT_EN : String :=
  "You are a knowledgeable Quran AI assistant.\n  Your name: Ustad AI.\n  Your responsibilities:\n  1. Answer only based on the Quran and authentic interpretations\n  2. If you don\x27t know, say so honestly\n  3. Always include Quran verse references\n  4. Use clear and understandable English\n  5. Provide clear and educational explanations\n  6. Avoid speculation or personal opinions\n\n  Your character:\n  - Polite and patient\n  - Scientific and objective\n  - Based on strong evidence\n  - Prioritizing truth"

/-- The lookup `SYSTEM_PROMPTS[language] || SYSTEM_PROMPTS.id`: the object
has exactly the keys `id` and `en`, and both prompts are non-empty, so the
`||` default applies exactly to unrecognized codes. -/
def systemPromptFor (language : String) : String :=
  if language = "id" then SYSTEM_PROMPT_ID
  else if language = "en" then SYSTEM_PROMPT_EN
  else SYSTEM_PROMPT_ID

/-- The fallback answer of the `catch (aiError)` branch of `/api/ask`. -/
def aiErrorFallbackAnswer (language question : String) : String :=
  if language = "id" then
    "Berdasarkan pertanyaan Anda tentang \"" ++ question ++
    "\", berikut beberapa ayat Al-Quran yang relevan:"
  else
    "Based on your question about \"" ++ question ++
    "\", here are some relevant Quran verses:"

/-- The fallback answer of the quota-denied branch of `/api/ask`. -/
def limitFallbackAnswer (language question : String) : String :=
  if language = "id" then
    "Batas harian neuron terlampaui. Berikut ayat-ayat terkait \"" ++ question ++ "\":"
  else
    "Daily neuron limit exceeded. Here are relevant Quran verses about \"" ++ question ++ "\":"

/-- The `disclaimer` of the `catch (aiError)` branch. -/
def aiErrorDisclaimer (language : String) : String :=
  if language = "id" then
    "AI sedang mengalami gangguan. Hanya menampilkan ayat-ayat Al-Quran yang relevan."
  else
    "AI service is currently unavailable. Only displaying relevant Quran verses."

/-- The `disclaimer` of the quota-denied branch. -/
def limitDisclaimer (language : String) : String :=
  if language = "id" then
    "AI sedang offline karena batas harian neuron. Hanya menampilkan ayat-ayat Al-Quran yang relevan."
  else
    "AI is offline due to daily neuron limit. Only displaying relevant Quran verses."

/-- The `disclaimer` of `formatResponse` in `utils.ts`. -/
def successDisclaimer (language : String) : String :=
  if language = "id" then
    "Jawaban AI untuk referensi. Verifikasi dengan ulama dan tafsir sahih."
  else
    "AI answer for reference. Verify with scholars and authentic tafsir."

/-- The `usage` object the inference gateway may report (`AIUsage`). -/
structure AIUsage where
  prompt_tokens : ℕ
  completion_tokens : ℕ
  total_tokens : ℕ
deriving DecidableEq

/-- The loosely-typed gateway response (`AIResponse`), restricted to the
fields the handler probes. -/
structure AIResponse where
  response : Option String
  content : Option String
  answer : Option String
  usage : Option AIUsage
deriving DecidableEq

/-- Outcome of the `env.AI.run` call: a response object, or a raised
exception (caught by the handler's `catch (aiError)`). -/
inductive AIOutcome where
  | success (resp : AIResponse)
  | failure
deriving DecidableEq

/-- JavaScript `a || b` on an optional string field: an absent field and the
empty string are both falsy. -/
def jsOrString (o : Option String) (d : String) : String :=
  match o with
  | some s => if s = "" then d else s
  | none => d

/-- JavaScript `a || b` on an optional numeric field: absent and `0` are
both falsy. -/
def jsOrNat (o : Option ℕ) (d : ℕ) : ℕ :=
  match o with
  | some n => if n = 0 then d else n
  | none => d

/-- The defensive answer extraction `aiResponse.response ||
aiResponse.content || aiResponse.answer || ''`. -/
def askAiAnswer (resp : AIResponse) : String :=
  jsOrString resp.response (jsOrString resp.content (jsOrString resp.answer ""))

/-- Prompt-token count: reported usage when present and non-zero, otherwise
`estimateTokens(systemPrompt + userPrompt)`. -/
def askPromptTokens (resp : AIResponse) (question language : String)
    (relevantVerses : List RankedVerse) : ℕ :=
  jsOrNat (resp.usage.map (fun u => u.prompt_tokens))
    (estimateTokens (systemPromptFor language ++ createQuranPrompt question relevantVerses language))

/-- Completion-token count: reported usage when present and non-zero,
otherwise `estimateTokens(aiAnswer)`. -/
def askCompletionTokens (resp : AIResponse) : ℕ :=
  jsOrNat (resp.usage.map (fun u => u.completion_tokens)) (estimateTokens (askAiAnswer resp))

/-- One entry of `verses_data` (the same projection is used by the success,
quota-denied and gateway-failure branches). -/
structure VerseData where
  surah_id : ℤ
  surah_name : String
  surah_name_arabic : String
  verse_id : ℤ
  verse_arabic : String
  verse_translation : String
  reference : String
deriving DecidableEq

/-- The `relevantVerses.map(v => ({...}))` projection. -/
def projectVerse (v : RankedVerse) : VerseData :=
  { surah_id := v.surah_id, surah_name := v.surah_name,
    surah_name_arabic := v.surah_name_arabic, verse_id := v.verse_id,
    verse_arabic := v.verse_text_arabic, verse_translation := v.verse_text_translation,
    reference := v.reference }

/-- The `limit_info` object of the quota-denied response. -/
structure LimitInfo where
  consumed : ℚ
  remaining : ℚ
  daily_limit : ℚ
  message : Option String
deriving DecidableEq

structure TokensInfo where
  input : ℕ
  output : ℕ
  total : ℕ
deriving DecidableEq

structure NeuronsInfo where
  consumed : ℚ
  formatted : String
  remaining : ℚ
  daily_limit : ℚ
deriving DecidableEq

structure CostInfo where
  input_usd : String
  output_usd : String
  total_usd : String
deriving DecidableEq

structure UsageInfo where
  tokens : TokensInfo
  neurons : NeuronsInfo
  cost_estimate : CostInfo
deriving DecidableEq

/-- The JSON body of a `/api/ask` answer (any of the three terminal shapes);
fields absent from a shape are `none`.  The `timestamp` field is wall-clock
output and is not modelled. -/
structure ApiResult where
  success : Bool
  answer : String
  verses_data : List VerseData
  language : String
  error : Option String
  disclaimer : String
  limit_info : Option LimitInfo
  usage : Option UsageInfo
deriving DecidableEq

/-- The `formatResponse` function from `utils.ts`. -/
def formatResponse (aiAnswer : String) (relevantVerses : List RankedVerse)
    (language : String) (usageInfo : Option UsageInfo) : ApiResult :=
  { success := true, answer := aiAnswer,
    verses_data := relevantVerses.map projectVerse, language := language,
    error := none, disclaimer := successDisclaimer language,
    limit_info := none, usage := usageInfo }

/-- What the `/api/ask` route returns: an early 4xx validation error, or a
JSON answer body. -/
inductive AskOut where
  | reqError (status : ℕ) (error : String)
  | api (result : ApiResult)
deriving DecidableEq

/-- The ranking the `/api/ask` branch computes before calling the gateway:
`findRelevantVerses(quranData, extractKeywords(question), 3)`. -/
def askRelevant (quranData : List QuranSurah) (question : String) : List RankedVerse :=
  findRelevantVerses quranData (extractKeywords question) 3

/-- The result object of the handler's `checkAndUpdateNeuronLimit` call. -/
def askNeuronCheck (quranData : List QuranSurah) (question language : String)
    (resp : AIResponse) (stored : Option ℚ) : NeuronLimitResult :=
  (checkAndUpdateNeuronLimit stored
    ((askPromptTokens resp question language (askRelevant quranData question) : ℕ) : ℚ)
    ((askCompletionTokens resp : ℕ) : ℚ)).1

/-- The `usage` payload of the success response. -/
def askUsageInfo (quranData : List QuranSurah) (question language : String)
    (resp : AIResponse) (stored : Option ℚ) : UsageInfo :=
  { tokens := { input := askPromptTokens resp question language (askRelevant quranData question),
                output := askCompletionTokens resp,
                total := askPromptTokens resp question language (askRelevant quranData question) +
                  askCompletionTokens resp },
    neurons := { consumed := (askNeuronCheck quranData question language resp stored).consumed,
                 formatted := formatNeurons
                   (askNeuronCheck quranData question language resp stored).consumed,
                 remaining := (askNeuronCheck quranData question language resp stored).remaining,
                 daily_limit := (askNeuronCheck quranData question language resp stored).dailyLimit },
    cost_estimate :=
      { input_usd := toFixed (estimateCost
          ((askPromptTokens resp question language (askRelevant quranData question) : ℕ) : ℚ)
          ((askCompletionTokens resp : ℕ) : ℚ)).inputCost 6,
        output_usd := toFixed (estimateCost
          ((askPromptTokens resp question language (askRelevant quranData question) : ℕ) : ℚ)
          ((askCompletionTokens resp : ℕ) : ℚ)).outputCost 6,
        total_usd := toFixed (estimateCost
          ((askPromptTokens resp question language (askRelevant quranData question) : ℕ) : ℚ)
          ((askCompletionTokens resp : ℕ) : ℚ)).totalCost 6 } }

/-- The body returned by the `catch (aiError)` branch. -/
def askFailureResponse (quranData : List QuranSurah) (question language : String) : AskOut :=
  .api { success := false, answer := aiErrorFallbackAnswer language question,
         verses_data := (askRelevant quranData question).map projectVerse,
         language := language,
         error := some "AI service temporarily unavailable",
         disclaimer := aiErrorDisclaimer language,
         limit_info := none, usage := none }

/-- The body returned by the quota-denied branch. -/
def askDeniedResponse (quranData : List QuranSurah) (question language : String)
    (resp : AIResponse) (stored : Option ℚ) : AskOut :=
  .api { success := false, answer := limitFallbackAnswer language question,
         verses_data := (askRelevant quranData question).map projectVerse,
         language := language,
         error := some "neuron_limit_exceeded",
         disclaimer := limitDisclaimer language,
         limit_info := some
           { consumed := (askNeuronCheck quranData question language resp stored).consumed,
             remaining := (askNeuronCheck quranData question language resp stored).remaining,
             daily_limit := (askNeuronCheck quranData question language resp stored).dailyLimit,
             message := (askNeuronCheck quranData question language resp stored).message },
         usage := none }

/-- The `try` branch after a gateway response: quota gate, then either the
denied body or the `formatResponse` success body. -/
def askSuccessResponse (quranData : List QuranSurah) (question language : String)
    (resp : AIResponse) (stored : Option ℚ) : AskOut :=
  if (askNeuronCheck quranData question language resp stored).allowed = false then
    askDeniedResponse quranData question language resp stored
  else
    .api (formatResponse (askAiAnswer resp) (askRelevant quranData question) language
      (some (askUsageInfo quranData question language resp stored)))

/-- The `/api/ask` branch of `fetchHandler`.  Inputs that the surrounding
code resolves before this branch runs are parameters: the loaded corpus,
the parsed request body (`question`, `language`), the gateway outcome, and
the current KV value for today's neuron key. -/
def askHandler (quranData : List QuranSurah) (question language : String)
    (ai : AIOutcome) (stored : Option ℚ) : AskOut :=
  if question = "" then .reqError 400 "Question is required"
  else if 500 < question.length then .reqError 400 "Pertanyaan terlalu panjang"
  else
    match ai with
    | .failure => askFailureResponse quranData question language
    | .success resp => askSuccessResponse quranData question language resp stored

/-- The `success` field of the JSON body, when one was produced. -/
def askOutSuccess : AskOut → Option Bool
  | .api r => some r.success
  | .reqError _ _ => none

/-- The `answer` field of the JSON body, when one was produced. -/
def askOutAnswer : AskOut → Option String
  | .api r => some r.answer
  | .reqError _ _ => none

/-- The `error` field of the JSON body, when one was produced. -/
def askOutError : AskOut → Option (Option String)
  | .api r => some r.error
  | .reqError _ _ => none

/-! ## Helper lemmas about the admission controller -/

/-- Branch equation: a call whose new total exceeds the cap is denied and
issues no write. -/
theorem neuronLimit_denied_eq (stored : Option ℚ) (p c : ℚ)
    (h : DAILY_NEURON_LIMIT < stored.getD 0 + calculateNeuronsConsumed p c) :
    checkAndUpdateNeuronLimit stored p c =
      ({ allowed := false, consumed := calculateNeuronsConsumed p c,
         remaining := max 0 (DAILY_NEURON_LIMIT - stored.getD 0),
         dailyLimit := DAILY_NEURON_LIMIT,
         message := some ("Batas harian neuron terlampaui. Tersisa: " ++
           formatNeurons (DAILY_NEURON_LIMIT - stored.getD 0) ++ " neurons") }, none) := by
  simp only [checkAndUpdateNeuronLimit]
  rw [if_pos h]

/-- Branch equation: a call whose new total stays within the cap is allowed
and persists the new total with a 86400-second TTL. -/
theorem neuronLimit_allowed_eq (stored : Option ℚ) (p c : ℚ)
    (h : stored.getD 0 + calculateNeuronsConsumed p c ≤ DAILY_NEURON_LIMIT) :
    checkAndUpdateNeuronLimit stored p c =
      ({ allowed := true, consumed := calculateNeuronsConsumed p c,
         remaining := DAILY_NEURON_LIMIT - (stored.getD 0 + calculateNeuronsConsumed p c),
         dailyLimit := DAILY_NEURON_LIMIT, message := none },
       some { value := stored.getD 0 + calculateNeuronsConsumed p c,
              expirationTtl := 86400 }) := by
  simp only [checkAndUpdateNeuronLimit]
  rw [if_neg (not_lt.mpr h)]

/-- A denied call issues no write. -/
theorem neuronLimit_write_none_of_denied (stored : Option ℚ) (p c : ℚ)
    (h : (checkAndUpdateNeuronLimit stored p c).1.allowed = false) :
    (checkAndUpdateNeuronLimit stored p c).2 = none := by
  by_cases hc : DAILY_NEURON_LIMIT < stored.getD 0 + calculateNeuronsConsumed p c
  · rw [neuronLimit_denied_eq stored p c hc]
  · rw [neuronLimit_allowed_eq stored p c (not_lt.mp hc)] at h
    simp at h

/-! ## Claim theorems: admission control -/

/-- Claim C1: when the new total would exceed the daily limit,
`checkAndUpdateNeuronLimit` returns `allowed = false` with
`remaining = max 0 (dailyLimit - current)` and does not write the new total;
consequently any number of consecutive denied calls leaves the stored
daily total unchanged. -/
theorem denied_call_never_charges :
    (∀ (stored : Option ℚ) (p c : ℚ),
        DAILY_NEURON_LIMIT < stored.getD 0 + calculateNeuronsConsumed p c →
        (checkAndUpdateNeuronLimit stored p c).1.allowed = false ∧
        (checkAndUpdateNeuronLimit stored p c).1.remaining =
          max 0 (DAILY_NEURON_LIMIT - stored.getD 0) ∧
        (checkAndUpdateNeuronLimit stored p c).2 = none) ∧
    (∀ (calls : List (ℚ × ℚ)) (stored : Option ℚ),
        (∀ pc ∈ calls, (checkAndUpdateNeuronLimit stored pc.1 pc.2).1.allowed = false) →
        runNeuronCalls stored calls = stored) := by
  constructor
  · intro stored p c h
    rw [neuronLimit_denied_eq stored p c h]
    exact ⟨rfl, rfl, rfl⟩
  · intro calls
    induction calls with
    | nil => intro stored _; rfl
    | cons pc rest ih =>
        intro stored h
        have h1 : applyNeuronCall stored pc = stored := by
          unfold applyNeuronCall
          rw [neuronLimit_write_none_of_denied stored pc.1 pc.2
            (h pc (List.mem_cons_self pc rest))]
        show runNeuronCalls (applyNeuronCall stored pc) rest = stored
        rw [h1]
        exact ih stored (fun q hq => h q (List.mem_cons_of_mem pc hq))

/-- Witness for C1: with the store at the cap, a 1000-completion-token call
is denied without a write, and two such calls leave the store unchanged. -/
theorem denied_call_never_charges_witness :
    ((checkAndUpdateNeuronLimit (some 10000) 0 1000).1.allowed = false ∧
     (checkAndUpdateNeuronLimit (some 10000) 0 1000).1.remaining =
       max 0 (DAILY_NEURON_LIMIT - (some (10000 : ℚ)).getD 0) ∧
     (checkAndUpdateNeuronLimit (some 10000) 0 1000).2 = none) ∧
    runNeuronCalls (some 10000) [(0, 1000), (0, 1000)] = some 10000 := by
  have hnum : DAILY_NEURON_LIMIT <
      (some (10000 : ℚ)).getD 0 + calculateNeuronsConsumed 0 1000 := by
    norm_num [DAILY_NEURON_LIMIT, calculateNeuronsConsumed,
      INPUT_TOKEN_NEURON_RATE, OUTPUT_TOKEN_NEURON_RATE]
  refine ⟨denied_call_never_charges.1 (some 10000) 0 1000 hnum, ?_⟩
  refine denied_call_never_charges.2 [(0, 1000), (0, 1000)] (some 10000) ?_
  intro pc hpc
  rcases List.mem_cons.mp hpc with rfl | hpc
  · exact (denied_call_never_charges.1 (some 10000) 0 1000 hnum).1
  rcases List.mem_cons.mp hpc with rfl | hpc
  · exact (denied_call_never_charges.1 (some 10000) 0 1000 hnum).1
  · cases hpc

/-- Claim C2: when the current total plus this call's consumption stays
within the daily limit, `checkAndUpdateNeuronLimit` allows the call,
reports `remaining = dailyLimit - (current + consumed)`, and persists
exactly `current + consumed` with a 24-hour (86400-second) TTL. -/
theorem allowed_call_charges_exactly (stored : Option ℚ) (p c : ℚ)
    (h : stored.getD 0 + calculateNeuronsConsumed p c ≤ DAILY_NEURON_LIMIT) :
    (checkAndUpdateNeuronLimit stored p c).1.allowed = true ∧
    (checkAndUpdateNeuronLimit stored p c).1.remaining =
      DAILY_NEURON_LIMIT - (stored.getD 0 + calculateNeuronsConsumed p c) ∧
    (checkAndUpdateNeuronLimit stored p c).2 =
      some { value := stored.getD 0 + calculateNeuronsConsumed p c,
             expirationTtl := 86400 } := by
  rw [neuronLimit_allowed_eq stored p c h]
  exact ⟨rfl, rfl, rfl⟩

/-- Witness for C2: a 100/100-token call against an empty store is allowed
and persists its exact cost with the 86400-second TTL. -/
theorem allowed_call_charges_exactly_witness :
    (Option.none.getD 0 + calculateNeuronsConsumed 100 100 ≤ DAILY_NEURON_LIMIT) ∧
    ((checkAndUpdateNeuronLimit none 100 100).1.allowed = true ∧
     (checkAndUpdateNeuronLimit none 100 100).1.remaining =
       DAILY_NEURON_LIMIT - (Option.none.getD 0 + calculateNeuronsConsumed 100 100) ∧
     (checkAndUpdateNeuronLimit none 100 100).2 =
       some { value := Option.none.getD 0 + calculateNeuronsConsumed 100 100,
              expirationTtl := 86400 }) := by
  have h : Option.none.getD 0 + calculateNeuronsConsumed 100 100 ≤ DAILY_NEURON_LIMIT := by
    norm_num [DAILY_NEURON_LIMIT, calculateNeuronsConsumed,
      INPUT_TOKEN_NEURON_RATE, OUTPUT_TOKEN_NEURON_RATE]
  exact ⟨h, allowed_call_charges_exactly none 100 100 h⟩

/-- Claim C9: every value the controller writes is at most the daily limit;
on an allowed call the reported remaining quota is non-negative; and from
an absent or zero store, any sequence of calls keeps the stored total at or
below the cap. -/
theorem stored_total_never_exceeds_cap :
    (∀ (stored : Option ℚ) (p c : ℚ) (w : KVWrite),
        (checkAndUpdateNeuronLimit stored p c).2 = some w →
        w.value ≤ DAILY_NEURON_LIMIT) ∧
    (∀ (stored : Option ℚ) (p c : ℚ),
        (checkAndUpdateNeuronLimit stored p c).1.allowed = true →
        0 ≤ (checkAndUpdateNeuronLimit stored p c).1.remaining) ∧
    (∀ (calls : List (ℚ × ℚ)) (s0 : Option ℚ),
        (s0 = none ∨ s0 = some 0) →
        ∀ v : ℚ, runNeuronCalls s0 calls = some v → v ≤ DAILY_NEURON_LIMIT) := by
  have hwrite : ∀ (stored : Option ℚ) (p c : ℚ) (w : KVWrite),
      (checkAndUpdateNeuronLimit stored p c).2 = some w →
      w.value ≤ DAILY_NEURON_LIMIT := by
    intro stored p c w hw
    by_cases hc : DAILY_NEURON_LIMIT < stored.getD 0 + calculateNeuronsConsumed p c
    · rw [neuronLimit_denied_eq stored p c hc] at hw
      cases hw
    · rw [neuronLimit_allowed_eq stored p c (not_lt.mp hc)] at hw
      cases hw
      exact not_lt.mp hc
  refine ⟨hwrite, ?_, ?_⟩
  · intro stored p c hall
    by_cases hc : DAILY_NEURON_LIMIT < stored.getD 0 + calculateNeuronsConsumed p c
    · rw [neuronLimit_denied_eq stored p c hc] at hall
      cases hall
    · rw [neuronLimit_allowed_eq stored p c (not_lt.mp hc)]
      simpa using not_lt.mp hc
  · intro calls
    have step : ∀ (s : Option ℚ) (pc : ℚ × ℚ),
        (∀ v : ℚ, s = some v → v ≤ DAILY_NEURON_LIMIT) →
        ∀ v : ℚ, applyNeuronCall s pc = some v → v ≤ DAILY_NEURON_LIMIT := by
      intro s pc hs v hv
      unfold applyNeuronCall at hv
      rcases hw2 : (checkAndUpdateNeuronLimit s pc.1 pc.2).2 with _ | w
      · rw [hw2] at hv
        exact hs v hv
      · rw [hw2] at hv
        cases hv
        exact hwrite s pc.1 pc.2 w hw2
    have run : ∀ (cs : List (ℚ × ℚ)) (s : Option ℚ),
        (∀ v : ℚ, s = some v → v ≤ DAILY_NEURON_LIMIT) →
        ∀ v : ℚ, runNeuronCalls s cs = some v → v ≤ DAILY_NEURON_LIMIT := by
      intro cs
      induction cs with
      | nil => intro s hs v hv; exact hs v hv
      | cons pc rest ih =>
          intro s hs v hv
          exact ih (applyNeuronCall s pc) (step s pc hs) v hv
    intro s0 hs0 v hv
    refine run calls s0 ?_ v hv
    rcases hs0 with rfl | rfl
    · intro v hv; cases hv
    · intro v hv
      cases hv
      norm_num [DAILY_NEURON_LIMIT]

/-- Witness for C9: a concrete allowed call's write stays under the cap and
its remaining quota is non-negative, and a two-call run from the empty
store ends at or below the cap. -/
theorem stored_total_never_exceeds_cap_witness :
    ((checkAndUpdateNeuronLimit none 100 100).2 =
        some { value := Option.none.getD 0 + calculateNeuronsConsumed 100 100,
               expirationTtl := 86400 } →
      (Option.none.getD 0 + calculateNeuronsConsumed 100 100 : ℚ) ≤ DAILY_NEURON_LIMIT) ∧
    ((checkAndUpdateNeuronLimit none 100 100).1.allowed = true →
      0 ≤ (checkAndUpdateNeuronLimit none 100 100).1.remaining) ∧
    (∀ v : ℚ, runNeuronCalls none [(100, 100), (100, 100)] = some v →
      v ≤ DAILY_NEURON_LIMIT) := by
  refine ⟨?_, ?_, ?_⟩
  · intro hw
    exact stored_total_never_exceeds_cap.1 none 100 100 _ hw
  · exact stored_total_never_exceeds_cap.2.1 none 100 100
  · exact stored_total_never_exceeds_cap.2.2 [(100, 100), (100, 100)] none (Or.inl rfl)

/-! ## Helper lemmas about the ranker -/

/-- The scoring fold, with the accumulator made explicit. -/
theorem verseScore_foldl (keywords : List String) (verseText : String) (acc : ℕ) :
    keywords.foldl (fun s k => if strIncludes verseText k then s + k.length else s) acc =
      acc + specVerseScore keywords verseText := by
  induction keywords generalizing acc with
  | nil => simp [specVerseScore]
  | cons k rest ih =>
      simp only [List.foldl_cons, specVerseScore, List.filter_cons]
      by_cases h : strIncludes verseText k
      · simp [h, ih, specVerseScore]
        omega
      · simp [h, ih, specVerseScore]

/-- A kept entry records the score of its own translation, and that score
is positive. -/
theorem scoreVerseEntry_spec (surah : QuranSurah) (keywords : List String)
    (verse : QuranVerse) (u : ScoredVerse)
    (h : scoreVerseEntry surah keywords verse = some u) :
    u.score = verseScore keywords (jsLower u.verse_text_translation) ∧ 0 < u.score := by
  unfold scoreVerseEntry at h
  split at h
  · cases h
  · split at h
    · cases h
      exact ⟨rfl, by assumption⟩
    · cases h

/-- Every collected entry scores its own translation, positively. -/
theorem mem_collectScored_spec (quranData : List QuranSurah) (keywords : List String)
    (u : ScoredVerse) (h : u ∈ collectScored quranData keywords) :
    u.score = verseScore keywords (jsLower u.verse_text_translation) ∧ 0 < u.score := by
  rcases List.mem_flatMap.mp h with ⟨surah, _, hm⟩
  rcases List.mem_filterMap.mp hm with ⟨verse, _, he⟩
  exact scoreVerseEntry_spec surah keywords verse u he

/-- Membership in the final ranking comes from the collection phase. -/
theorem mem_findRelevantVerses (quranData : List QuranSurah) (keywords : List String)
    (limit : ℕ) (v : RankedVerse) (h : v ∈ findRelevantVerses quranData keywords limit) :
    v.toScoredVerse ∈ collectScored quranData keywords := by
  unfold findRelevantVerses at h
  rcases List.mem_map.mp h with ⟨u, hu, rfl⟩
  exact List.mem_mergeSort.mp (List.mem_of_mem_take hu)

/-- The comparator is transitive. -/
theorem scoreDescending_trans (a b c : ScoredVerse)
    (h1 : scoreDescending a b) (h2 : scoreDescending b c) : scoreDescending a c := by
  simp only [scoreDescending, decide_eq_true_eq] at h1 h2 ⊢
  omega

/-- The comparator is total. -/
theorem scoreDescending_total (a b : ScoredVerse) :
    scoreDescending a b || scoreDescending b a := by
  simp only [scoreDescending, Bool.or_eq_true, decide_eq_true_eq]
  omega

/-! ## Claim theorems: ranking -/

/-- Claim C4: the score of a ranked verse is the sum, over the keywords
that are substring-contained in the lowercased translation, of each such
keyword's length (each keyword counted once, independent of how often it
occurs in the verse). -/
theorem score_sums_matched_keyword_lengths :
    (∀ (keywords : List String) (verseText : String),
        verseScore keywords verseText = specVerseScore keywords verseText) ∧
    (∀ (quranData : List QuranSurah) (keywords : List String) (limit : ℕ)
        (v : RankedVerse), v ∈ findRelevantVerses quranData keywords limit →
        v.score = specVerseScore keywords (jsLower v.verse_text_translation)) := by
  have heq : ∀ (keywords : List String) (verseText : String),
      verseScore keywords verseText = specVerseScore keywords verseText := by
    intro keywords verseText
    simpa using verseScore_foldl keywords verseText 0
  refine ⟨heq, ?_⟩
  intro quranData keywords limit v hv
  have h := (mem_collectScored_spec quranData keywords v.toScoredVerse
    (mem_findRelevantVerses quranData keywords limit v hv)).1
  calc v.score = v.toScoredVerse.score := rfl
    _ = verseScore keywords (jsLower v.toScoredVerse.verse_text_translation) := h
    _ = specVerseScore keywords (jsLower v.verse_text_translation) := heq _ _

/-- Claim C3: the ranking is sorted by non-increasing score, equal scores
keep their corpus order (the per-score fibers of the output are sublists of
the per-score fibers of the collection pass, which enumerates the corpus in
order), the output never exceeds the requested limit, and no returned verse
has score 0. -/
theorem ranking_sorted_stable_bounded_positive :
    (∀ (quranData : List QuranSurah) (keywords : List String) (limit : ℕ),
        (findRelevantVerses quranData keywords limit).Pairwise
          (fun a b => b.score ≤ a.score)) ∧
    (∀ (quranData : List QuranSurah) (keywords : List String) (limit : ℕ) (s : ℕ),
        (((findRelevantVerses quranData keywords limit).map
            RankedVerse.toScoredVerse).filter (fun v => v.score == s)).Sublist
          ((collectScored quranData keywords).filter (fun v => v.score == s))) ∧
    (∀ (quranData : List QuranSurah) (keywords : List String) (limit : ℕ),
        (findRelevantVerses quranData keywords limit).length ≤ limit) ∧
    (∀ (quranData : List QuranSurah) (keywords : List String) (limit : ℕ)
        (v : RankedVerse), v ∈ findRelevantVerses quranData keywords limit →
        v.score ≠ 0) := by
  refine ⟨?_, ?_, ?_, ?_⟩
  · intro quranData keywords limit
    have hs : ((collectScored quranData keywords).mergeSort scoreDescending).Pairwise
        (fun a b => scoreDescending a b = true) :=
      List.sorted_mergeSort scoreDescending_trans scoreDescending_total _
    have ht : (((collectScored quranData keywords).mergeSort scoreDescending).take
        limit).Pairwise (fun a b => scoreDescending a b = true) :=
      hs.sublist (List.take_sublist limit _)
    unfold findRelevantVerses
    rw [List.pairwise_map]
    exact ht.imp (fun h => by simpa [scoreDescending] using h)
  · intro quranData keywords limit s
    set L := collectScored quranData keywords with hL
    set p : ScoredVerse → Bool := fun v => v.score == s with hp
    have hpair : (L.filter p).Pairwise (fun a b => scoreDescending a b = true) := by
      apply List.pairwise_of_forall_mem_list
      intro a ha b hb
      have ha2 := (List.mem_filter.mp ha).2
      have hb2 := (List.mem_filter.mp hb).2
      simp only [hp, beq_iff_eq] at ha2 hb2
      simp [scoreDescending, ha2, hb2]
    have hsub : (L.filter p).Sublist (L.mergeSort scoreDescending) :=
      List.sublist_mergeSort scoreDescending_trans scoreDescending_total hpair
        (List.filter_sublist L)
    have hself : (L.filter p).filter p = L.filter p := by
      apply List.filter_eq_self.mpr
      intro a ha
      exact (List.mem_filter.mp ha).2
    have hsub2 : (L.filter p).Sublist ((L.mergeSort scoreDescending).filter p) := by
      rw [← hself]
      exact List.Sublist.filter p hsub
    have hperm : ((L.mergeSort scoreDescending).filter p).Perm (L.filter p) :=
      (List.mergeSort_perm L scoreDescending).filter p
    have heq : (L.mergeSort scoreDescending).filter p = L.filter p :=
      (hsub2.eq_of_length hperm.length_eq.symm).symm
    unfold findRelevantVerses
    rw [List.map_map]
    have hid : (RankedVerse.toScoredVerse ∘ addReference) = id := rfl
    rw [hid, List.map_id, ← heq]
    exact List.Sublist.filter p (List.take_sublist limit _)
  · intro quranData keywords limit
    unfold findRelevantVerses
    rw [List.length_map, List.length_take]
    omega
  · intro quranData keywords limit v hv
    have h := (mem_collectScored_spec quranData keywords v.toScoredVerse
      (mem_findRelevantVerses quranData keywords limit v hv)).2
    have : v.score = v.toScoredVerse.score := rfl
    omega

/-- Claim C7: a question made only of stop-words and short tokens yields no
keywords, and the ranker returns the empty list on an empty keyword set. -/
theorem stopword_question_yields_empty_ranking (question : String)
    (h : ∀ w ∈ tokenize question, w.length ≤ 2 ∨ w ∈ stopWords) :
    extractKeywords question = [] ∧
    ∀ (quranData : List QuranSurah) (limit : ℕ),
      findRelevantVerses quranData (extractKeywords question) limit = [] := by
  have hk : extractKeywords question = [] := by
    unfold extractKeywords
    apply List.filter_eq_nil_iff.mpr
    intro w hw
    rcases h w hw with h1 | h1 <;>
      simp [h1, List.contains_iff_exists_mem_beq]
  refine ⟨hk, ?_⟩
  rw [hk]
  intro quranData limit
  have hc : collectScored quranData [] = [] := by
    unfold collectScored
    apply List.flatMap_eq_nil_iff.mpr
    intro surah _
    apply List.filterMap_eq_nil_iff.mpr
    intro verse _
    unfold scoreVerseEntry
    split
    · rfl
    · rfl
  unfold findRelevantVerses
  rw [hc, List.mergeSort_nil]
  simp

/-! ## Concrete test corpus for the witnesses -/

def demoVerse : QuranVerse :=
  { id := 1, text := "arab", translation := "Sabar itu indah" }

def demoSurah : QuranSurah :=
  { id := 1, name := "Demo", transliteration := "Demo", translation := "Demo",
    type := "Makkiyah", total_verses := 1, verses := [demoVerse] }

def demoCorpus : List QuranSurah := [demoSurah]

/-- The single scored entry the demo corpus produces for keyword "sabar". -/
def demoScored : ScoredVerse :=
  { surah_id := 1, surah_name := "Demo", surah_name_arabic := "Demo", verse_id := 1,
    verse_text_arabic := "arab", verse_text_translation := "Sabar itu indah", score := 5 }

theorem demo_collect_eq : collectScored demoCorpus ["sabar"] = [demoScored] := by
  decide

theorem demo_mem : addReference demoScored ∈ findRelevantVerses demoCorpus ["sabar"] 3 := by
  unfold findRelevantVerses
  rw [demo_collect_eq, List.mergeSort_singleton]
  simp

/-- Witness for C4: the demo ranking contains a verse, and its score is the
specification sum. -/
theorem score_sums_matched_keyword_lengths_witness :
    addReference demoScored ∈ findRelevantVerses demoCorpus ["sabar"] 3 ∧
    (addReference demoScored).score =
      specVerseScore ["sabar"] (jsLower (addReference demoScored).verse_text_translation) :=
  ⟨demo_mem, score_sums_matched_keyword_lengths.2 demoCorpus ["sabar"] 3 _ demo_mem⟩

/-- Witness for C3: the demo ranking is sorted, bounded by the limit, and
its member has a non-zero score. -/
theorem ranking_sorted_stable_bounded_positive_witness :
    (findRelevantVerses demoCorpus ["sabar"] 3).Pairwise (fun a b => b.score ≤ a.score) ∧
    (findRelevantVerses demoCorpus ["sabar"] 3).length ≤ 3 ∧
    (addReference demoScored).score ≠ 0 :=
  ⟨ranking_sorted_stable_bounded_positive.1 demoCorpus ["sabar"] 3,
   ranking_sorted_stable_bounded_positive.2.2.1 demoCorpus ["sabar"] 3,
   ranking_sorted_stable_bounded_positive.2.2.2 demoCorpus ["sabar"] 3 _ demo_mem⟩

/-- Witness for C7: a stop-word / short-token question produces no keywords
and an empty ranking on the demo corpus. -/
theorem stopword_question_yields_empty_ranking_witness :
    extractKeywords "Apa itu, di?" = [] ∧
    findRelevantVerses demoCorpus (extractKeywords "Apa itu, di?") 3 = [] := by
  have h : ∀ w ∈ tokenize "Apa itu, di?", w.length ≤ 2 ∨ w ∈ stopWords := by decide
  exact ⟨(stopword_question_yields_empty_ranking "Apa itu, di?" h).1,
    (stopword_question_yields_empty_ranking "Apa itu, di?" h).2 demoCorpus 3⟩

/-! ## Claim theorems: neuron formatting -/

/-- Evaluation helper: the rounding floor of an integer plus one half. -/
theorem floor_add_half (n : ℤ) : ⌊(n : ℚ) + 1 / 2⌋ = n := by
  rw [Int.floor_int_add]
  norm_num

/-- Claim C8: the reference values of `formatNeurons`, including the two
unit boundaries 1000 (formatted on the "k" scale) and 1000000 (formatted on
the "M" scale). -/
theorem formatNeurons_reference_values :
    formatNeurons 500 = "500.00" ∧ formatNeurons 1500 = "1.50k" ∧
    formatNeurons 2500000 = "2.5000M" ∧ formatNeurons 1000 = "1.00k" ∧
    formatNeurons 1000000 = "1.0000M" := by
  have e500 : toFixed 500 2 = "500.00" := by
    unfold toFixed
    rw [show (500 : ℚ) * (10 : ℚ) ^ (2 : ℕ) + 1 / 2 = ((50000 : ℤ) : ℚ) + 1 / 2 by
      norm_num, floor_add_half]
    rfl
  have e1500 : toFixed (1500 / 1000) 2 = "1.50" := by
    unfold toFixed
    rw [show (1500 / 1000 : ℚ) * (10 : ℚ) ^ (2 : ℕ) + 1 / 2 = ((150 : ℤ) : ℚ) + 1 / 2 by
      norm_num, floor_add_half]
    rfl
  have e25 : toFixed (2500000 / 1000000) 4 = "2.5000" := by
    unfold toFixed
    rw [show (2500000 / 1000000 : ℚ) * (10 : ℚ) ^ (4 : ℕ) + 1 / 2 =
        ((25000 : ℤ) : ℚ) + 1 / 2 by norm_num, floor_add_half]
    rfl
  have e1k : toFixed (1000 / 1000) 2 = "1.00" := by
    unfold toFixed
    rw [show (1000 / 1000 : ℚ) * (10 : ℚ) ^ (2 : ℕ) + 1 / 2 = ((100 : ℤ) : ℚ) + 1 / 2 by
      norm_num, floor_add_half]
    rfl
  have e1m : toFixed (1000000 / 1000000) 4 = "1.0000" := by
    unfold toFixed
    rw [show (1000000 / 1000000 : ℚ) * (10 : ℚ) ^ (4 : ℕ) + 1 / 2 =
        ((10000 : ℤ) : ℚ) + 1 / 2 by norm_num, floor_add_half]
    rfl
  refine ⟨?_, ?_, ?_, ?_, ?_⟩
  · rw [formatNeurons, if_pos (by norm_num), e500]
  · rw [formatNeurons, if_neg (by norm_num), if_pos (by norm_num), e1500]
    rfl
  · rw [formatNeurons, if_neg (by norm_num), if_neg (by norm_num), e25]
    rfl
  · rw [formatNeurons, if_neg (by norm_num), if_pos (by norm_num), e1k]
    rfl
  · rw [formatNeurons, if_neg (by norm_num), if_neg (by norm_num), e1m]
    rfl

/-! ## Helper lemmas about the `/api/ask` handler -/

/-- Branch equation: a validated request whose gateway call raised. -/
theorem askHandler_failure_eq (quranData : List QuranSurah) (question language : String)
    (stored : Option ℚ) (h1 : question ≠ "") (h2 : question.length ≤ 500) :
    askHandler quranData question language .failure stored =
      askFailureResponse quranData question language := by
  unfold askHandler
  rw [if_neg h1, if_neg (by omega : ¬ 500 < question.length)]

/-- Branch equation: a validated request whose gateway call returned and
whose quota check denied. -/
theorem askHandler_success_denied (quranData : List QuranSurah) (question language : String)
    (resp : AIResponse) (stored : Option ℚ)
    (h1 : question ≠ "") (h2 : question.length ≤ 500)
    (h3 : (askNeuronCheck quranData question language resp stored).allowed = false) :
    askHandler quranData question language (.success resp) stored =
      askDeniedResponse quranData question language resp stored := by
  unfold askHandler
  rw [if_neg h1, if_neg (by omega : ¬ 500 < question.length)]
  show askSuccessResponse quranData question language resp stored = _
  unfold askSuccessResponse
  rw [if_pos h3]

/-- Branch equation: a validated request whose gateway call returned and
whose quota check allowed. -/
theorem askHandler_success_allowed (quranData : List QuranSurah) (question language : String)
    (resp : AIResponse) (stored : Option ℚ)
    (h1 : question ≠ "") (h2 : question.length ≤ 500)
    (h3 : ¬ (askNeuronCheck quranData question language resp stored).allowed = false) :
    askHandler quranData question language (.success resp) stored =
      .api (formatResponse (askAiAnswer resp) (askRelevant quranData question) language
        (some (askUsageInfo quranData question language resp stored))) := by
  unfold askHandler
  rw [if_neg h1, if_neg (by omega : ¬ 500 < question.length)]
  show askSuccessResponse quranData question language resp stored = _
  unfold askSuccessResponse
  rw [if_neg h3]

/-! ## Claim theorems: `/api/ask` degradation and language defaults -/

/-- Claim C6: when the gateway raises, the handler answers with
`success = false`, a service-unavailability error, and the verses computed
by the ranking performed before the call — so the caller still receives the
relevant verses whenever any exist. -/
theorem gateway_failure_still_returns_verses (quranData : List QuranSurah)
    (question language : String) (stored : Option ℚ)
    (h1 : question ≠ "") (h2 : question.length ≤ 500) :
    askHandler quranData question language .failure stored =
      .api { success := false, answer := aiErrorFallbackAnswer language question,
             verses_data :=
               (findRelevantVerses quranData (extractKeywords question) 3).map projectVerse,
             language := language,
             error := some "AI service temporarily unavailable",
             disclaimer := aiErrorDisclaimer language,
             limit_info := none, usage := none } ∧
    (findRelevantVerses quranData (extractKeywords question) 3 ≠ [] →
      (findRelevantVerses quranData (extractKeywords question) 3).map projectVerse ≠ []) := by
  constructor
  · rw [askHandler_failure_eq quranData question language stored h1 h2]
    rfl
  · intro h
    simpa using h

/-- Witness for C6: on the demo corpus the failing gateway still yields the
ranked verse list. -/
theorem gateway_failure_still_returns_verses_witness :
    (askHandler demoCorpus "sabar" "id" .failure none =
      .api { success := false, answer := aiErrorFallbackAnswer "id" "sabar",
             verses_data :=
               (findRelevantVerses demoCorpus (extractKeywords "sabar") 3).map projectVerse,
             language := "id",
             error := some "AI service temporarily unavailable",
             disclaimer := aiErrorDisclaimer "id",
             limit_info := none, usage := none }) ∧
    (findRelevantVerses demoCorpus (extractKeywords "sabar") 3 ≠ [] →
      (findRelevantVerses demoCorpus (extractKeywords "sabar") 3).map projectVerse ≠ []) :=
  gateway_failure_still_returns_verses demoCorpus "sabar" "id" none (by decide) (by decide)

/-- Counterexample for C5: the language code "fr" is neither supported
locale, yet `createQuranPrompt` produces the English template for it, not
the primary Indonesian one. -/
theorem prompt_language_default_counterexample :
    ("fr" : String) ≠ "id" ∧ ("fr" : String) ≠ "en" ∧
    createQuranPrompt "Apa itu sabar?" [] "fr" = createQuranPrompt "Apa itu sabar?" [] "en" ∧
    createQuranPrompt "Apa itu sabar?" [] "fr" ≠ createQuranPrompt "Apa itu sabar?" [] "id" := by
  refine ⟨by decide, by decide, rfl, ?_⟩
  decide

/-- Claim C5 as amended: for an unrecognized language code the
system-prompt lookup falls back to the primary ("id") prompt, while
`createQuranPrompt` and both fallback messages produce the secondary
("en") variants. -/
theorem unrecognized_language_variants (question lang : String)
    (verses : List RankedVerse) (h1 : lang ≠ "id") (h2 : lang ≠ "en") :
    systemPromptFor lang = systemPromptFor "id" ∧
    createQuranPrompt question verses lang = createQuranPrompt question verses "en" ∧
    aiErrorFallbackAnswer lang question = aiErrorFallbackAnswer "en" question ∧
    limitFallbackAnswer lang question = limitFallbackAnswer "en" question := by
  have hen : ¬ ("en" : String) = "id" := by decide
  refine ⟨?_, ?_, ?_, ?_⟩
  · simp [systemPromptFor, h1, h2]
  · have hctx : versesContextEntry lang = versesContextEntry "en" := by
      funext v
      simp only [versesContextEntry]
      rw [if_neg h1, if_neg hen]
    simp only [createQuranPrompt, hctx]
    by_cases hv : verses = []
    · rw [if_pos hv, if_pos hv, if_neg h1, if_neg hen]
    · rw [if_neg hv, if_neg hv, if_neg h1, if_neg hen]
  · simp only [aiErrorFallbackAnswer]
    rw [if_neg h1, if_neg hen]
  · simp only [limitFallbackAnswer]
    rw [if_neg h1, if_neg hen]

/-- Witness for the amended C5, at the unrecognized code "fr". -/
theorem unrecognized_language_variants_witness :
    systemPromptFor "fr" = systemPromptFor "id" ∧
    createQuranPrompt "Apa itu sabar?" [] "fr" = createQuranPrompt "Apa itu sabar?" [] "en" ∧
    aiErrorFallbackAnswer "fr" "Apa itu sabar?" = aiErrorFallbackAnswer "en" "Apa itu sabar?" ∧
    limitFallbackAnswer "fr" "Apa itu sabar?" = limitFallbackAnswer "en" "Apa itu sabar?" :=
  unrecognized_language_variants "Apa itu sabar?" "fr" [] (by decide) (by decide)

/-- A gateway response whose probed answer fields are all absent or empty,
with reported token usage putting the call over the remaining quota when
the store is at the cap. -/
def emptyFieldsResp : AIResponse :=
  { response := none, content := some "", answer := none,
    usage := some { prompt_tokens := 1000, completion_tokens := 1000,
                    total_tokens := 2000 } }

/-- Counterexample for C10: the gateway succeeded and every probed answer
field is empty or absent, yet with the daily counter already at the cap the
handler returns `success = false` (the quota-denied shape), not
`success = true`. -/
theorem empty_answer_counterexample :
    askAiAnswer emptyFieldsResp = "" ∧
    askOutSuccess (askHandler demoCorpus "sabar" "id" (.success emptyFieldsResp)
      (some 10000)) = some false := by
  constructor
  · rfl
  · have hpt : askPromptTokens emptyFieldsResp "sabar" "id"
        (askRelevant demoCorpus "sabar") = 1000 := rfl
    have hct : askCompletionTokens emptyFieldsResp = 1000 := rfl
    have h3 : (askNeuronCheck demoCorpus "sabar" "id" emptyFieldsResp
        (some 10000)).allowed = false := by
      unfold askNeuronCheck
      rw [hpt, hct, neuronLimit_denied_eq _ _ _ (by
        norm_num [calculateNeuronsConsumed, INPUT_TOKEN_NEURON_RATE,
          OUTPUT_TOKEN_NEURON_RATE, DAILY_NEURON_LIMIT])]
    rw [askHandler_success_denied demoCorpus "sabar" "id" emptyFieldsResp (some 10000)
      (by decide) (by decide) h3]
    rfl

/-- Claim C10 as amended: when the gateway succeeds with all probed answer
fields absent or empty AND the quota check allows the call, the handler
returns `success = true` with the empty string as answer — a missing answer
text is not treated as a generation failure. -/
theorem empty_answer_fields_still_success (quranData : List QuranSurah)
    (question language : String) (resp : AIResponse) (stored : Option ℚ)
    (h1 : question ≠ "") (h2 : question.length ≤ 500)
    (h3 : resp.response = none ∨ resp.response = some "")
    (h4 : resp.content = none ∨ resp.content = some "")
    (h5 : resp.answer = none ∨ resp.answer = some "")
    (h6 : (askNeuronCheck quranData question language resp stored).allowed = true) :
    askOutSuccess (askHandler quranData question language (.success resp) stored) =
      some true ∧
    askOutAnswer (askHandler quranData question language (.success resp) stored) =
      some "" := by
  have ha : askAiAnswer resp = "" := by
    unfold askAiAnswer jsOrString
    rcases h3 with h3 | h3 <;> rcases h4 with h4 | h4 <;> rcases h5 with h5 | h5 <;>
      rw [h3, h4, h5] <;> simp
  have hb : ¬ (askNeuronCheck quranData question language resp stored).allowed = false := by
    simp [h6]
  rw [askHandler_success_allowed quranData question language resp stored h1 h2 hb]
  refine ⟨rfl, ?_⟩
  show some (askAiAnswer resp) = some ""
  rw [ha]

/-- A gateway response with empty probed fields and small reported usage,
for the amended-C10 witness. -/
def emptySmallResp : AIResponse :=
  { response := none, content := none, answer := some "",
    usage := some { prompt_tokens := 10, completion_tokens := 10, total_tokens := 20 } }

/-- Witness for the amended C10: against an empty store, the small call is
allowed and the handler answers `success = true` with an empty answer. -/
theorem empty_answer_fields_still_success_witness :
    askOutSuccess (askHandler demoCorpus "sabar" "id" (.success emptySmallResp) none) =
      some true ∧
    askOutAnswer (askHandler demoCorpus "sabar" "id" (.success emptySmallResp) none) =
      some "" := by
  have hpt : askPromptTokens emptySmallResp "sabar" "id"
      (askRelevant demoCorpus "sabar") = 10 := rfl
  have hct : askCompletionTokens emptySmallResp = 10 := rfl
  have h6 : (askNeuronCheck demoCorpus "sabar" "id" emptySmallResp none).allowed = true := by
    unfold askNeuronCheck
    rw [hpt, hct, neuronLimit_allowed_eq _ _ _ (by
      norm_num [calculateNeuronsConsumed, INPUT_TOKEN_NEURON_RATE,
        OUTPUT_TOKEN_NEURON_RATE, DAILY_NEURON_LIMIT])]
  exact empty_answer_fields_still_success demoCorpus "sabar" "id" emptySmallResp none
    (by decide) (by decide) (Or.inl rfl) (Or.inl rfl) (Or.inr rfl) h6

end QuranAI
